import Mathlib

/-!
Verification development for the Pay4Way bot repository.

The pricing engine, cart/session handlers, order submission and currency
service from src/Pay4Way_bot are shallowly embedded below.  Monetary
amounts (Python floats in the source) are modelled as exact rationals;
Python's round(x, 2) is modelled by round2 (round half up to two decimal
places — every concrete value rounded in this development is away from a
tie, where the two conventions agree).  Python functions that return None
on failure are modelled with Option.
-/

/-- Model of Python round(x, 2): round to two decimal places. -/
def round2 (x : ℚ) : ℚ := ((round (x * 100) : ℤ) : ℚ) / 100

/-- The single active delivery-type key of DELIVERY_TYPES
(price_calculator.py line 22). -/
def emsCode : String := "ems"

/-- Display name of the EMS delivery type (price_calculator.py line 23). -/
def emsName : String := "EMS"

/-- The EMS weight → shipping-cost table
(price_calculator.py lines 24-28). -/
def emsWeights : List (ℚ × ℚ) :=
  [(1/2, 1569/100), (1, 1739/100), (3/2, 2165/100), (2, 2335/100),
   (5/2, 255/10), (3, 272/10), (7/2, 2974/100), (4, 3144/100),
   (9/2, 3359/100), (5, 3529/100), (11/2, 3744/100), (6, 3914/100),
   (13/2, 4129/100), (7, 4299/100), (15/2, 4514/100), (8, 4684/100)]

/-- The DELIVERY_TYPES dictionary (price_calculator.py lines 6-30):
delivery-type key ↦ (display name, weights table).  Only "ems" is
active; the other entries are commented out in the source. -/
def DELIVERY_TYPES : List (String × String × List (ℚ × ℚ)) :=
  [(emsCode, emsName, emsWeights)]

/-- Exact-key lookup in a weight table (Python dict.get(weight, None)). -/
def lookupRat (w : ℚ) : List (ℚ × ℚ) → Option ℚ
  | [] => none
  | kv :: rest => if w = kv.1 then some kv.2 else lookupRat w rest

/-- Exact-key lookup of a delivery type in DELIVERY_TYPES. -/
def lookupType (t : String) :
    List (String × String × List (ℚ × ℚ)) → Option (String × List (ℚ × ℚ))
  | [] => none
  | e :: rest => if t = e.1 then some e.2 else lookupType t rest

/-- get_delivery_cost (price_calculator.py lines 104-119): returns the
shipping cost for the delivery type and weight, or none if either the
type is unknown or the weight has no entry (weights.get(weight, None)). -/
def get_delivery_cost (delivery_type : String) (weight : ℚ) : Option ℚ :=
  match lookupType delivery_type DELIVERY_TYPES with
  | none => none
  | some td => lookupRat weight td.2

/-- extract_price_value (price_calculator.py lines 76-101), numeric
branch: an int/float input is returned unchanged.  The string-parsing
branch is outside the scope of the claims. -/
def extract_price_value (p : ℚ) : Option ℚ := some p

/-- price_without_vat (price_calculator.py line 56):
original_price_clean - original_price_clean * 0.19. -/
def price_without_vat (p : ℚ) : ℚ := p - p * (19/100)

/-- step4 of calculate_item_price (price_calculator.py line 60):
net price plus the international delivery cost.  No 5.00 warehouse
leg appears in this function. -/
def item_step4 (p c : ℚ) : ℚ := price_without_vat p + c

/-- step5 of calculate_item_price (price_calculator.py line 62):
15% service commission on step4, used unrounded. -/
def item_step5 (p c : ℚ) : ℚ := item_step4 p c * (15/100)

/-- step6 of calculate_item_price (price_calculator.py line 64):
3% insurance on (net price + commission), the delivery cost excluded. -/
def item_step6 (p c : ℚ) : ℚ := (price_without_vat p + item_step5 p c) * (3/100)

/-- calculate_item_price (price_calculator.py lines 32-73).  Returns 0.0
when the price cannot be extracted or the (type, weight) lookup fails;
otherwise rounds the final sum (and only the final sum) to 2 decimals.
The with_vat=False branch divides by 1.20 before rounding. -/
def calculate_item_price (original_price : ℚ) (delivery_type : String)
    (weight : ℚ) (with_vat : Bool) : ℚ :=
  match extract_price_value original_price with
  | none => 0
  | some p =>
    match get_delivery_cost delivery_type weight with
    | none => 0
    | some delivery_cost =>
      let calculated :=
        item_step4 p delivery_cost + item_step5 p delivery_cost +
          item_step6 p delivery_cost
      round2 (if with_vat then calculated else calculated / (120/100))

/-- Result dictionary of calculate_cart_total
(price_calculator.py lines 176-182). -/
structure CartTotals where
  total : ℚ
  service_fee : ℚ
  insurance_fee : ℚ
  savings : ℚ
  delivery_cost : ℚ

/-- calculate_cart_total (price_calculator.py lines 154-182): the
service fee is (net price + delivery cost) * 0.15 — no warehouse leg,
no rounding — and the insurance fee is (net price + service fee) * 0.03.
In Python a failed delivery lookup raises on the arithmetic that
follows; this is modelled as none. -/
def calculate_cart_total (original_price : ℚ) (delivery_type : String)
    (weight : ℚ) : Option CartTotals :=
  match extract_price_value original_price, get_delivery_cost delivery_type weight with
  | some p, some delivery_cost =>
    let pw := calculate_item_price original_price delivery_type weight true
    let pwo := calculate_item_price original_price delivery_type weight false
    let item_price_without_vat := p - p * (19/100)
    let service_fee := (item_price_without_vat + delivery_cost) * (15/100)
    let insurance_fee := (item_price_without_vat + service_fee) * (3/100)
    some ⟨pw, service_fee, insurance_fee, pw - pwo, delivery_cost⟩
  | _, _ => none

/-- The cost breakdown displayed by choose_weight (bot.py lines 425-440). -/
structure QuoteDisplay where
  net : ℚ
  warehouse_leg : ℚ
  international_leg : ℚ
  commission : ℚ
  insurance : ℚ
  total : ℚ

/-- The quote computed in choose_weight (bot.py lines 425-440):
net = original_price * 0.81, a fixed 5.00 warehouse leg, commission
(net + 5.00 + delivery cost) * 0.15 and insurance
(net + commission) * 0.03, all unrounded; the total is their sum.
The figures are rounded only by the display formatting. -/
def choose_weight_quote (original_price : ℚ) (delivery_type : String)
    (weight : ℚ) : Option QuoteDisplay :=
  match get_delivery_cost delivery_type weight with
  | none => none
  | some delivery_cost =>
    let delivery_cost_to_warehouse : ℚ := 5
    let net := original_price * (81/100)
    let service_commission_amount :=
      (net + delivery_cost_to_warehouse + delivery_cost) * (15/100)
    let insurance_fee_amount := (net + service_commission_amount) * (3/100)
    let final_price_without_vat :=
      net + delivery_cost_to_warehouse + delivery_cost +
        service_commission_amount + insurance_fee_amount
    some ⟨net, delivery_cost_to_warehouse, delivery_cost,
      service_commission_amount, insurance_fee_amount, final_price_without_vat⟩

/-- The order-summary commission and total of process_address
(order_handlers.py lines 104-106): subtotal includes the fixed 5.00
warehouse leg, and both commission and total are rounded to 2 decimals. -/
def process_address_summary (total_products_without_vat : ℚ)
    (delivery_cost_from_germany : ℚ) : ℚ × ℚ :=
  let subtotal := total_products_without_vat + 5 + delivery_cost_from_germany
  let service_commission := round2 (subtotal * (15/100))
  (service_commission, round2 (subtotal + service_commission))

/-- Modelled from the spec: the per-step-rounded form of the
calculate_item_price algorithm, in which every intermediate monetary
result is rounded to 2 decimals before the next step uses it.  Written
for comparison with calculate_item_price, which rounds only at the end. -/
def spec_step_rounded_total (p c : ℚ) : ℚ :=
  let net := round2 (p - p * (19/100))
  let s4 := round2 (net + c)
  let s5 := round2 (s4 * (15/100))
  let s6 := round2 ((net + s5) * (3/100))
  round2 (s4 + s5 + s6)

/-- A cart line item.  Only the fields the cart/session claims depend on
are modelled; the pricing fields of a calculated product are frozen at
add time in the source and play no role in the session claims. -/
structure Product where
  title : String
  price : ℚ
  quantity : Nat

/-- One conversation session: the aiogram FSM state tag plus the FSM
data dictionary.  Each data key is a field; a missing key is none (for
the cart, a missing key reads as [] via data.get('cart', [])). -/
structure Session where
  fsm_state : Option String
  cart : List Product
  selected_product : Option Product
  selected_product_index : Option Nat
  original_price : Option ℚ
  delivery_type : Option String
  weight : Option ℚ
  product_link : Option String
  product_features : Option String

/-- aiogram state.update_data(cart=c): merges the cart key into the FSM
data, leaving the state tag and every other key unchanged. -/
def update_data_cart (s : Session) (c : List Product) : Session :=
  { s with cart := c }

/-- aiogram state.clear(): sets the state tag to None and replaces the
FSM data with the empty dictionary — every key is dropped, the cart
included (a later read of the cart key yields []). -/
def clear_state (_ : Session) : Session :=
  { fsm_state := none, cart := [], selected_product := none,
    selected_product_index := none, original_price := none,
    delivery_type := none, weight := none, product_link := none,
    product_features := none }

/-- clear_cart_reply_handler (bot.py lines 785-791): the reply-button
clear-cart handler runs state.update_data(cart=[]). -/
def clear_cart_reply_handler (s : Session) : Session :=
  update_data_cart s []

/-- clear_cart_callback (bot.py lines 1073-1079): the inline-callback
clear-cart handler runs state.update_data(cart=[]). -/
def clear_cart_callback (s : Session) : Session :=
  update_data_cart s []

/-- handle_quantity_search (bot.py lines 1331-1394): after validating the
quantity and reading the selected product, appends the product to the
cart via update_data, clears the selected-product keys, and finally runs
state.clear() — which erases the whole FSM data, the just-updated cart
included. -/
def handle_quantity_search (s : Session) (quantity : Nat) : Session :=
  if quantity < 1 ∨ 999 < quantity then s
  else
    match s.selected_product with
    | none => s
    | some product =>
      let product_with_quantity := { product with quantity := quantity }
      let s1 := update_data_cart s (s.cart ++ [product_with_quantity])
      let s2 := { s1 with selected_product := none, selected_product_index := none }
      clear_state s2

/-- handle_custom_quantity_search (bot.py lines 1490-1548): same flow as
handle_quantity_search for a typed-in quantity, ending in state.clear();
when no product is selected it clears the state and reports an error. -/
def handle_custom_quantity_search (s : Session) (quantity : Nat) : Session :=
  if quantity < 1 ∨ 999 < quantity then s
  else
    match s.selected_product with
    | none => clear_state s
    | some product =>
      let product_with_quantity := { product with quantity := quantity }
      let s1 := update_data_cart s (s.cart ++ [product_with_quantity])
      let s2 := { s1 with selected_product := none, selected_product_index := none }
      clear_state s2

/-- cancel_price_calculation (bot.py lines 1848-1866): saves the cart,
runs state.clear(), then writes the saved cart back with update_data. -/
def cancel_price_calculation (s : Session) : Session :=
  update_data_cart (clear_state s) s.cart

/-- remove_item_callback cart mutation (bot.py lines 1087-1092, 1165-1166):
pops the item at the parsed index when 0 <= index < len(cart), else
reports an error and leaves the cart untouched.  The Bool records
whether a removal happened. -/
def remove_item (cart : List Product) (item_index : ℤ) : List Product × Bool :=
  if 0 ≤ item_index ∧ item_index < cart.length then
    (cart.eraseIdx item_index.toNat, true)
  else (cart, false)

/-- The persistence side effects attempted during order completion. -/
inductive PersistAction where
  | local_file : PersistAction
  | sheets : PersistAction
  | manager : PersistAction
deriving DecidableEq

/-- process_order_completion (order_handlers.py lines 589-644): attempts
the local file write, the Google Sheets write and the manager
notification in order; Sheets and manager failures are logged as
warnings only, and the returned success flag is exactly the local-file
result.  Each Bool argument is the outcome of the corresponding
side effect. -/
def process_order_completion (local_ok sheets_ok manager_ok : Bool) :
    Bool × List PersistAction :=
  (local_ok,
    [PersistAction.local_file, PersistAction.sheets, PersistAction.manager])

/-- confirm_order_callback (order_handlers.py lines 143-225): an empty
cart is rejected with an error message before process_order_completion
is reached (no persistence attempt); otherwise the completion runs and
its flag decides the user-visible success or failure message. -/
def confirm_order_callback (cart : List Product)
    (local_ok sheets_ok manager_ok : Bool) : Bool × List PersistAction :=
  if cart.isEmpty then (false, [])
  else process_order_completion local_ok sheets_ok manager_ok

/-- Cache state of CurrencyService (currency_service.py lines 10-13):
raw rates by currency-pair key, and the time of the last successful
fetch. -/
structure CurrencyState where
  cache : List (String × ℚ)
  last_update : ℚ

/-- self.cache_timeout = 3600 (currency_service.py line 12). -/
def cache_timeout : ℚ := 3600

/-- Exact-key lookup in the rate cache (cache_key in self.cache). -/
def lookupStr (k : String) : List (String × ℚ) → Option ℚ
  | [] => none
  | kv :: rest => if k = kv.1 then some kv.2 else lookupStr k rest

/-- Dictionary update self.cache[cache_key] = rate. -/
def insertStr (k : String) (v : ℚ) : List (String × ℚ) → List (String × ℚ)
  | [] => [(k, v)]
  | kv :: rest => if k = kv.1 then (k, v) :: rest else kv :: insertStr k v rest

/-- The separator of the cache key f-string. -/
def underscore_sep : String := "_"

/-- cache_key = f-string joining the currency codes
(currency_service.py line 26). -/
def cache_key (from_currency to_currency : String) : String :=
  from_currency ++ underscore_sep ++ to_currency

/-- The fetch branch of get_exchange_rate (currency_service.py
lines 33-56).  The provider argument is the outcome of the external
call: none for a non-200 response, a timeout, an exception or a missing
target key; some rate for a parsed rate.  A falsy (zero) rate is treated
as missing.  On success the raw rate is cached and last_update is set;
the marked-up rate * 1.035 is returned. -/
def fetch_rate (st : CurrencyState) (now : ℚ) (key : String)
    (provider : Option ℚ) : Option ℚ × CurrencyState :=
  match provider with
  | none => (none, st)
  | some rate =>
    if rate = 0 then (none, st)
    else
      (some (rate * (1035/1000)),
        ⟨insertStr key rate st.cache, now⟩)

/-- get_exchange_rate (currency_service.py lines 15-56): if the pair is
cached and the last update is within the timeout, returns the cached raw
rate * 1.035 without consulting the provider; otherwise fetches. -/
def get_exchange_rate (st : CurrencyState) (now : ℚ)
    (from_currency to_currency : String) (provider : Option ℚ) :
    Option ℚ × CurrencyState :=
  let key := cache_key from_currency to_currency
  match lookupStr key st.cache with
  | some cached =>
    if now - st.last_update < cache_timeout then
      (some (cached * (1035/1000)), st)
    else fetch_rate st now key provider
  | none => fetch_rate st now key provider

/-- convert_price (currency_service.py lines 60-75): multiplies the
price by the marked-up rate when one is available (a falsy rate reads as
unavailable), else returns None. -/
def convert_price (st : CurrencyState) (now : ℚ) (price : ℚ)
    (from_currency to_currency : String) (provider : Option ℚ) :
    Option ℚ × CurrencyState :=
  match get_exchange_rate st now from_currency to_currency provider with
  | (some rate, st2) => if rate = 0 then (none, st2) else (some (price * rate), st2)
  | (none, st2) => (none, st2)

/-- The freshly constructed service (currency_service.py lines 10-13):
empty cache, last_update = 0. -/
def initial_currency_state : CurrencyState := ⟨[], 0⟩

/-- Default source currency EUR. -/
def eur_currency : String := "EUR"

/-- Default target currency RUB. -/
def rub_currency : String := "RUB"

/-- A concrete product used in the closed-form session theorems. -/
def demo_product : Product :=
  { title := "search result", price := 10, quantity := 1 }

/-- A concrete in-cart product used in the closed-form session theorems. -/
def demo_cart_item : Product :=
  { title := "already in cart", price := 20, quantity := 1 }

/-- The FSM state tag while the quantity prompt is pending. -/
def quantity_prompt_state : String := "CartStates:waiting_for_quantity_search"

/-- A concrete session: one item already in the cart, a search result
selected, quantity prompt pending. -/
def demo_session : Session :=
  { fsm_state := some quantity_prompt_state,
    cart := [demo_cart_item],
    selected_product := some demo_product,
    selected_product_index := some 0,
    original_price := none, delivery_type := none, weight := none,
    product_link := none, product_features := none }

/-- A successful table lookup only ever returns an exact entry of the
table — there is no nearest-weight fallback anywhere in the lookup. -/
theorem lookupRat_some_mem {w c : ℚ} :
    ∀ {l : List (ℚ × ℚ)}, lookupRat w l = some c → (w, c) ∈ l := by
  intro l
  induction l with
  | nil => intro h; simp [lookupRat] at h
  | cons kv rest ih =>
    intro h
    by_cases hw : w = kv.1
    · simp only [lookupRat, if_pos hw] at h
      obtain rfl : kv.2 = c := by simpa using h
      subst hw
      exact List.mem_cons_self _ _
    · simp only [lookupRat, if_neg hw] at h
      exact List.mem_cons_of_mem _ (ih h)

/-- For the active delivery type the cost lookup is exactly the EMS
weight-table lookup. -/
theorem get_delivery_cost_ems (w : ℚ) :
    get_delivery_cost emsCode w = lookupRat w emsWeights := by
  simp [get_delivery_cost, lookupType, DELIVERY_TYPES]

/-- The EMS table maps weight 1 to 17.39. -/
theorem ems_cost_at_one : get_delivery_cost emsCode 1 = some (1739/100) := by
  rw [get_delivery_cost_ems]
  norm_num [lookupRat, emsWeights]

/-- The EMS table maps weight 1.5 to 21.65. -/
theorem ems_cost_at_three_halves :
    get_delivery_cost emsCode (3/2) = some (2165/100) := by
  rw [get_delivery_cost_ems]
  norm_num [lookupRat, emsWeights]

/-- C1 counterexample: at listed_price=100, tier "ems", weight=1 neither
pricing computation produces the claimed final total of 121.80: the
library calculator returns 116.02 (it has no 5.00 warehouse leg) and the
quote shown by the weight-selection handler totals 121.793755, which
displays as 121.79. -/
theorem C1_counterexample :
    calculate_item_price 100 emsCode 1 true ≠ 1218/10 ∧
    (choose_weight_quote 100 emsCode 1).map QuoteDisplay.total ≠ some (1218/10) := by
  constructor
  · simp only [calculate_item_price, extract_price_value, ems_cost_at_one]
    norm_num [item_step4, item_step5, item_step6, price_without_vat,
      round2, round_eq]
  · simp only [choose_weight_quote, ems_cost_at_one, Option.map_some']
    norm_num

/-- C1 amended: at listed_price=100, tier "ems", weight=1 the
weight-selection quote has net_price=81.00, international_leg=17.39 and
a 5.00 warehouse leg summing to 103.39, but its commission is the
unrounded 15.5085 (displayed 15.51), its insurance 2.895255 (displayed
2.90) and its total 121.793755 (displayed 121.79, not 121.80); the
library calculator calculate_item_price, which omits the warehouse leg,
returns 116.02. -/
theorem C1_amended :
    calculate_item_price 100 emsCode 1 true = 11602/100 ∧
    choose_weight_quote 100 emsCode 1 =
      some { net := 81, warehouse_leg := 5, international_leg := 1739/100,
             commission := 155085/10000, insurance := 2895255/1000000,
             total := 121793755/1000000 } ∧
    (81 : ℚ) + 5 + 1739/100 = 10339/100 ∧
    round2 (155085/10000) = 1551/100 ∧
    round2 (2895255/1000000) = 29/10 ∧
    round2 (121793755/1000000) = 12179/100 := by
  refine ⟨?_, ?_, by norm_num, ?_, ?_, ?_⟩
  · simp only [calculate_item_price, extract_price_value, ems_cost_at_one]
    norm_num [item_step4, item_step5, item_step6, price_without_vat,
      round2, round_eq]
  · simp only [choose_weight_quote, ems_cost_at_one, QuoteDisplay.mk.injEq,
      Option.some.injEq]
    norm_num
  · norm_num [round2, round_eq]
  · norm_num [round2, round_eq]
  · norm_num [round2, round_eq]

/-- C2 counterexample: at listed_price=50, tier "ems", weight=1.5 the
commission intermediate is 9.3225 — not a 2-decimal value, so it is fed
into the next step unrounded — and the code's final price 72.97 differs
from the 72.96 produced by rounding every intermediate to 2 decimals. -/
theorem C2_counterexample :
    item_step5 50 (2165/100) ≠ round2 (item_step5 50 (2165/100)) ∧
    calculate_item_price 50 emsCode (3/2) true = 7297/100 ∧
    spec_step_rounded_total 50 (2165/100) = 7296/100 ∧
    calculate_item_price 50 emsCode (3/2) true ≠ spec_step_rounded_total 50 (2165/100) := by
  refine ⟨?_, ?_, ?_, ?_⟩
  · norm_num [item_step5, item_step4, price_without_vat, round2, round_eq]
  · simp only [calculate_item_price, extract_price_value, ems_cost_at_three_halves]
    norm_num [item_step4, item_step5, item_step6, price_without_vat,
      round2, round_eq]
  · norm_num [spec_step_rounded_total, round2, round_eq]
  · simp only [calculate_item_price, extract_price_value, ems_cost_at_three_halves]
    norm_num [item_step4, item_step5, item_step6, price_without_vat,
      spec_step_rounded_total, round2, round_eq]

/-- C2 amended: no intermediate of calculate_item_price is rounded; the
whole computation is exact arithmetic on the unrounded steps and only
the final amount is rounded to 2 decimals — for every price and every
(tier, weight), the result is round2 of a single closed-form expression
of the exact net price and delivery cost. -/
theorem C2_amended (p : ℚ) (t : String) (w : ℚ) :
    calculate_item_price p t w true =
      (match get_delivery_cost t w with
       | none => 0
       | some c =>
         round2 ((81/100 * p + c) * (115/100) +
           (81/100 * p + (81/100 * p + c) * (15/100)) * (3/100))) := by
  cases h : get_delivery_cost t w with
  | none => simp [calculate_item_price, extract_price_value, h]
  | some c =>
    simp only [calculate_item_price, extract_price_value, h, if_true]
    congr 1
    simp only [item_step4, item_step5, item_step6, price_without_vat]
    ring

/-- C3 counterexample: at listed_price=100, tier "ems", weight=1 the
cart-total computation produces a service fee of 14.7585, not the
claimed round((81.00 + 5.00 + 17.39) * 0.15, 2) = 15.51 — the warehouse
leg is absent from this commission base and nothing is rounded. -/
theorem C3_counterexample :
    (calculate_cart_total 100 emsCode 1).map CartTotals.service_fee
      = some (147585/10000) ∧
    round2 (((81 : ℚ) + 5 + 1739/100) * (15/100)) = 1551/100 ∧
    (147585/10000 : ℚ) ≠ 1551/100 := by
  refine ⟨?_, ?_, by norm_num⟩
  · simp only [calculate_cart_total, extract_price_value, ems_cost_at_one]
    norm_num
  · norm_num [round2, round_eq]

/-- C3 amended: the commission is computed differently at each site —
calculate_cart_total and calculate_item_price use
(net_price + international_leg) * 0.15 with no warehouse leg and no
rounding; the weight-selection quote uses
(net_price + 5.00 + international_leg) * 0.15 unrounded (exactly 0.75
above the cart-total fee); only the order summary computes
round((net_total + 5.00 + international_leg) * 0.15, 2). -/
theorem C3_amended (p w n c : ℚ) :
    (calculate_cart_total p emsCode w).map CartTotals.service_fee
      = (get_delivery_cost emsCode w).map (fun dc => (81/100 * p + dc) * (15/100)) ∧
    (choose_weight_quote p emsCode w).map QuoteDisplay.commission
      = (get_delivery_cost emsCode w).map
          (fun dc => (81/100 * p + 5 + dc) * (15/100)) ∧
    (choose_weight_quote p emsCode w).map QuoteDisplay.commission
      = (calculate_cart_total p emsCode w).map (fun ct => ct.service_fee + 3/4) ∧
    (process_address_summary n c).1 = round2 ((n + 5 + c) * (15/100)) ∧
    item_step5 p c = (81/100 * p + c) * (15/100) := by
  have hpa : (process_address_summary n c).1 = round2 ((n + 5 + c) * (15/100)) := rfl
  have hi5 : item_step5 p c = (81/100 * p + c) * (15/100) := by
    simp only [item_step5, item_step4, price_without_vat]
    ring
  cases h : get_delivery_cost emsCode w with
  | none =>
    refine ⟨?_, ?_, ?_, hpa, hi5⟩ <;>
      simp [calculate_cart_total, choose_weight_quote, extract_price_value, h]
  | some dc =>
    refine ⟨?_, ?_, ?_, hpa, hi5⟩
    · simp only [calculate_cart_total, extract_price_value, h, Option.map_some']
      congr 1
      ring
    · simp only [choose_weight_quote, h, Option.map_some']
      congr 1
      ring
    · simp only [choose_weight_quote, calculate_cart_total, extract_price_value,
        h, Option.map_some']
      congr 1
      ring

/-- C4: at every site that computes insurance — calculate_item_price
(step6), calculate_cart_total and the weight-selection quote — the
insurance fee equals 3% of (net price + that site's commission); the
international leg enters only through the commission, never the
insurance base directly, so two different delivery costs change the
insurance by exactly 3% of the commission difference. -/
theorem C4_insurance_base (p w c c2 : ℚ) :
    (calculate_cart_total p emsCode w).map CartTotals.insurance_fee
      = (calculate_cart_total p emsCode w).map
          (fun ct => (81/100 * p + ct.service_fee) * (3/100)) ∧
    (choose_weight_quote p emsCode w).map QuoteDisplay.insurance
      = (choose_weight_quote p emsCode w).map
          (fun q => (q.net + q.commission) * (3/100)) ∧
    item_step6 p c = (81/100 * p + item_step5 p c) * (3/100) ∧
    item_step6 p c - item_step6 p c2
      = (3/100) * (item_step5 p c - item_step5 p c2) := by
  have hi6 : item_step6 p c = (81/100 * p + item_step5 p c) * (3/100) := by
    simp only [item_step6, item_step5, item_step4, price_without_vat]
    ring
  have hdiff : item_step6 p c - item_step6 p c2
      = (3/100) * (item_step5 p c - item_step5 p c2) := by
    simp only [item_step6, item_step5, item_step4, price_without_vat]
    ring
  cases h : get_delivery_cost emsCode w with
  | none =>
    refine ⟨?_, ?_, hi6, hdiff⟩ <;>
      simp [calculate_cart_total, choose_weight_quote, extract_price_value, h]
  | some dc =>
    refine ⟨?_, ?_, hi6, hdiff⟩
    · simp only [calculate_cart_total, extract_price_value, h, Option.map_some']
      congr 1
      ring
    · simp only [choose_weight_quote, h, Option.map_some']

/-- C5: the cart-survival invariant is violated by the add-from-search
handlers — starting from a session whose cart holds one item and whose
selected product is set, both quantity handlers end in state.clear(),
leaving the cart empty instead of the old item plus the new one; the
cancel handler, by contrast, restores the cart after clearing. -/
theorem C5_cart_wiped_by_search_add :
    demo_session.cart = [demo_cart_item] ∧
    (handle_quantity_search demo_session 2).cart = [] ∧
    (handle_custom_quantity_search demo_session 2).cart = [] ∧
    (∀ s : Session, (cancel_price_calculation s).cart = s.cart) :=
  ⟨rfl, rfl, rfl, fun _ => rfl⟩

/-- C6: for every delivery type and weight, either the cost lookup fails
— in which case calculate_item_price returns the 0.0 error sentinel —
or it succeeds with the exact entry of the EMS table for that weight
(the only known tier); a success is never a nearest-weight or substitute
value, since the returned pair is a member of the table. -/
theorem C6_exact_lookup_or_zero (t : String) (w : ℚ) :
    (get_delivery_cost t w = none ∧
      ∀ p b, calculate_item_price p t w b = 0) ∨
    (∃ c, get_delivery_cost t w = some c ∧ t = emsCode ∧ (w, c) ∈ emsWeights) := by
  by_cases ht : t = emsCode
  · subst ht
    cases h : lookupRat w emsWeights with
    | none =>
      left
      constructor
      · rw [get_delivery_cost_ems, h]
      · intro p b
        simp [calculate_item_price, extract_price_value, get_delivery_cost_ems, h]
    | some c =>
      right
      exact ⟨c, by rw [get_delivery_cost_ems, h], rfl, lookupRat_some_mem h⟩
  · left
    have hn : get_delivery_cost t w = none := by
      simp [get_delivery_cost, lookupType, DELIVERY_TYPES, ht]
    refine ⟨hn, fun p b => ?_⟩
    simp [calculate_item_price, extract_price_value, hn]

/-- C7: order submission with an empty cart fails with no persistence
action attempted; with a non-empty cart all three persistence actions
are attempted and the reported outcome equals the local-file result
alone — the spreadsheet and manager-notification outcomes never change
the reported result. -/
theorem C7_submission_semantics (cart : List Product)
    (local_ok sheets_ok manager_ok sheets_ok2 manager_ok2 : Bool) :
    confirm_order_callback cart local_ok sheets_ok manager_ok =
      (if cart.isEmpty then (false, [])
       else (local_ok, [PersistAction.local_file, PersistAction.sheets,
         PersistAction.manager])) ∧
    (confirm_order_callback cart local_ok sheets_ok manager_ok).1
      = (confirm_order_callback cart local_ok sheets_ok2 manager_ok2).1 := by
  cases cart <;> simp [confirm_order_callback, process_order_completion]

/-- C8: with an empty cache, a conversion backed by a provider rate r
returns amount * r * 1.035 and caches the raw rate; a second conversion
for the same pair within the 3600-second window returns the same value
computed from the cached raw rate, ignoring a changed provider value r2;
and a provider failure yields none with the state unchanged. -/
theorem C8_currency_conversion (amount r r2 t0 t1 : ℚ) (hr : 0 < r)
    (ht : t1 - t0 < cache_timeout) :
    (convert_price initial_currency_state t0 amount eur_currency rub_currency
        (some r)).1 = some (amount * r * (1035/1000)) ∧
    (convert_price
        (convert_price initial_currency_state t0 amount eur_currency rub_currency
          (some r)).2
        t1 amount eur_currency rub_currency (some r2)).1
      = some (amount * r * (1035/1000)) ∧
    convert_price initial_currency_state t0 amount eur_currency rub_currency none
      = (none, initial_currency_state) := by
  have hrne : r ≠ 0 := ne_of_gt hr
  have hmark : r * (1035/1000) ≠ 0 := mul_ne_zero hrne (by norm_num)
  refine ⟨?_, ?_, ?_⟩
  · simp [convert_price, get_exchange_rate, fetch_rate, initial_currency_state,
      lookupStr, hrne, hmark, mul_assoc]
  · simp [convert_price, get_exchange_rate, fetch_rate, initial_currency_state,
      lookupStr, insertStr, hrne, hmark, ht, mul_assoc]
  · simp [convert_price, get_exchange_rate, fetch_rate, initial_currency_state,
      lookupStr]

/-- C8 witness: the conversion theorem applied at amount 2, raw rate 90,
changed provider rate 100, both calls at time 0. -/
theorem C8_currency_conversion_witness :
    (0 : ℚ) < 90 ∧ (0 : ℚ) - 0 < cache_timeout ∧
    (convert_price initial_currency_state 0 2 eur_currency rub_currency
        (some 90)).1 = some (2 * 90 * (1035/1000)) ∧
    (convert_price
        (convert_price initial_currency_state 0 2 eur_currency rub_currency
          (some 90)).2
        0 2 eur_currency rub_currency (some 100)).1
      = some (2 * 90 * (1035/1000)) :=
  ⟨by decide, by simp [cache_timeout],
    (C8_currency_conversion 2 90 100 0 0 (by decide) (by simp [cache_timeout])).1,
    (C8_currency_conversion 2 90 100 0 0 (by decide) (by simp [cache_timeout])).2.1⟩

/-- C9: removal at an in-range index succeeds, drops exactly the element
at that index (later items shift down by one), and shrinks the cart by
one; repeating remove at the same index removes the element that was
originally one position later, leaving length N - 2; an out-of-range
index leaves the cart unchanged and reports failure. -/
theorem C9_remove_item_reindexes (cart : List Product) (i : ℕ)
    (h : i + 1 < cart.length) :
    (remove_item cart i).2 = true ∧
    (remove_item cart i).1 = cart.take i ++ cart.drop (i + 1) ∧
    (remove_item cart i).1.length = cart.length - 1 ∧
    ((remove_item cart i).1)[i]? = cart[i + 1]? ∧
    (remove_item (remove_item cart i).1 i).2 = true ∧
    (remove_item (remove_item cart i).1 i).1.length = cart.length - 2 ∧
    (∀ k : ℤ, ¬(0 ≤ k ∧ k < cart.length) → remove_item cart k = (cart, false)) := by
  have hi : i < cart.length := by omega
  have hcond : (0 : ℤ) ≤ (i : ℤ) ∧ (i : ℤ) < cart.length := by
    constructor
    · exact_mod_cast Nat.zero_le i
    · exact_mod_cast hi
  have h1 : remove_item cart i = (cart.eraseIdx i, true) := by
    simp [remove_item, hcond, Int.toNat_natCast]
  have hlen1 : (cart.eraseIdx i).length = cart.length - 1 := by
    simp [List.length_eraseIdx, hi]
  have hi2 : i < (cart.eraseIdx i).length := by omega
  have hcond2 : (0 : ℤ) ≤ (i : ℤ) ∧ (i : ℤ) < (cart.eraseIdx i).length := by
    constructor
    · exact_mod_cast Nat.zero_le i
    · exact_mod_cast hi2
  have h2 : remove_item (cart.eraseIdx i) i = ((cart.eraseIdx i).eraseIdx i, true) := by
    simp [remove_item, hcond2, Int.toNat_natCast]
  refine ⟨by rw [h1], ?_, ?_, ?_, ?_, ?_, ?_⟩
  · rw [h1]
    exact List.eraseIdx_eq_take_drop_succ cart i
  · rw [h1]
    exact hlen1
  · rw [h1]
    rw [List.eraseIdx_eq_take_drop_succ]
    rw [List.getElem?_append_right (by simp [List.length_take])]
    have hmin : i ⊓ cart.length = i := Nat.min_eq_left (by omega)
    simp [List.length_take, hmin]
  · rw [h1, h2]
  · rw [h1, h2]
    show ((cart.eraseIdx i).eraseIdx i).length = cart.length - 2
    have hlen2 : ((cart.eraseIdx i).eraseIdx i).length
        = (cart.eraseIdx i).length - 1 := by
      rw [List.length_eraseIdx]
      simp only [if_pos hi2]
    omega
  · intro k hk
    simp only [remove_item, if_neg hk]

/-- C9 witness: the removal theorem applied at a two-item cart and
index 0. -/
theorem C9_remove_item_reindexes_witness :
    0 + 1 < [demo_cart_item, demo_product].length ∧
    (remove_item [demo_cart_item, demo_product] ((0 : ℕ) : ℤ)).1.length
      = [demo_cart_item, demo_product].length - 1 :=
  ⟨by decide,
    (C9_remove_item_reindexes [demo_cart_item, demo_product] 0 (by decide)).2.2.1⟩

/-- C10: both clear-cart handlers replace the session's cart with the
empty list and leave the dialog state tag and every scratch field —
selected product and index, price, delivery type, weight, link and
features — exactly as they were; the two handlers are extensionally
identical. -/
theorem C10_clear_cart_frame (s : Session) :
    clear_cart_reply_handler s = { s with cart := [] } ∧
    clear_cart_callback s = { s with cart := [] } ∧
    (clear_cart_reply_handler s).cart = [] ∧
    (clear_cart_callback s).cart = [] ∧
    (clear_cart_callback s).fsm_state = s.fsm_state ∧
    (clear_cart_callback s).selected_product = s.selected_product ∧
    (clear_cart_callback s).selected_product_index = s.selected_product_index ∧
    (clear_cart_callback s).original_price = s.original_price ∧
    (clear_cart_callback s).delivery_type = s.delivery_type ∧
    (clear_cart_callback s).weight = s.weight ∧
    (clear_cart_callback s).product_link = s.product_link ∧
    (clear_cart_callback s).product_features = s.product_features ∧
    clear_cart_reply_handler s = clear_cart_callback s :=
  ⟨rfl, rfl, rfl, rfl, rfl, rfl, rfl, rfl, rfl, rfl, rfl, rfl, rfl⟩
